import Mathlib

/-!
Shallow embedding of the offline-sync engine of the vuchada backend
(app/routers/sync.py: push_changes and pull_changes, over the row types of
app/db/models.py).

Modelling conventions:
- UUIDs are Nat.  The fresh-id generator (uuid.uuid4) is modelled by a
  counter threaded through the push state; a payload id field is either
  absent/falsy, present but unparseable, or a parsed id (IdField).
- Timestamps are Nat (ISO strings compare chronologically); a nullable
  column is Option Nat.
- Monetary floats are Int: the handlers only move these values around
  verbatim (float(x or 0) style), so no floating-point arithmetic is
  involved in any claim.
- Python truthiness on optional numbers/strings (the x or y idiom) is
  modelled by truthyI / truthyS.
- The relational store is lists of rows per table; SELECT ... WHERE is
  List.filter / List.find?, ORDER BY updated_at ASC is a stable insertion
  sort (ties keep store order; the source has no id tie-break), LIMIT is
  List.take.
-/

namespace Vuchada

/-- Python truthiness for an optional number: None and 0 are falsy. -/
def truthyI : Option Int → Option Int
  | some x => if x = 0 then none else some x
  | none => none

/-- Python truthiness for an optional string: None and the empty string are falsy. -/
def truthyS : Option String → Option String
  | some s => if s = "" then none else some s
  | none => none

/-- A character Python str.isspace counts as whitespace, and that
str.strip therefore removes: tab through carriage return (9-13), the
information separators 28-31, space, next line 0x85, no-break space 0xA0,
and the Unicode space separators (ogham space mark, en quad through hair
space, line/paragraph separator, narrow no-break, medium mathematical,
ideographic space). -/
def isPySpace (c : Char) : Bool :=
  let n := c.toNat
  n == 32 || (9 ≤ n && n ≤ 13) || (28 ≤ n && n ≤ 31) || n == 0x85 || n == 0xA0 ||
    n == 0x1680 || (0x2000 ≤ n && n ≤ 0x200A) || n == 0x2028 || n == 0x2029 ||
    n == 0x202F || n == 0x205F || n == 0x3000

/-- Python str.strip of the whitespace padding around a name, acting on
the character list. -/
def pyStrip (s : String) : String :=
  ⟨((s.data.dropWhile isPySpace).reverse.dropWhile isPySpace).reverse⟩

/-- ASCII lower-casing of one character, as str.lower acts on the entity tags. -/
def lowerChar (c : Char) : Char :=
  if 'A' ≤ c ∧ c ≤ 'Z' then Char.ofNat (c.toNat + 32) else c

/-- ASCII lower-casing of a string (models str(ev.entity or "").lower()). -/
def lowerStr (s : String) : String := ⟨s.data.map lowerChar⟩

/-- Stable insert into a sorted list: x is placed before the first element
y with le x y, so equal keys keep their original relative order. -/
def insertLe {α : Type} (le : α → α → Bool) (x : α) : List α → List α
  | [] => [x]
  | y :: ys => if le x y then x :: y :: ys else y :: insertLe le x ys

/-- Stable sort by the boolean preorder le (models ORDER BY ... ASC). -/
def sortLe {α : Type} (le : α → α → Bool) : List α → List α
  | [] => []
  | x :: xs => insertLe le x (sortLe le xs)

/-- An id-valued payload entry: absent/falsy, present but not a parseable
UUID, or a parsed UUID. -/
inductive IdField
  | absent
  | bad
  | ok (id : Nat)
deriving DecidableEq

/-- The _parse_uuid helper of push_changes: None unless the value parses. -/
def IdField.parse? : IdField → Option Nat
  | .ok n => some n
  | _ => none

/-! Row types, from app/db/models.py (fields the sync engine touches). -/

/-- Row of pdv.produtos. -/
structure Produto where
  id : Nat
  tenant_id : Nat
  codigo : String
  nome : String
  preco_venda : Int
deriving DecidableEq

/-- Row of pdv.vendas (an order header). -/
structure Venda where
  id : Nat
  tenant_id : Nat
  usuario_id : Option Nat
  cliente_id : Option Nat
  total : Int
  desconto : Int
  forma_pagamento : String
  observacoes : Option String
  cancelada : Bool
  created_at : Option Nat
  updated_at : Option Nat
deriving DecidableEq

/-- Row of pdv.itens_venda (an order line item). -/
structure ItemVenda where
  venda_id : Nat
  produto_id : Nat
  quantidade : Int
  peso_kg : Int
  preco_unitario : Int
  subtotal : Int
  taxa_iva : Int
  base_iva : Int
  valor_iva : Int
deriving DecidableEq

/-- Row of pdv.clientes. -/
structure Cliente where
  id : Nat
  tenant_id : Nat
  nome : String
  documento : Option String
  telefone : Option String
  endereco : Option String
  ativo : Bool
  created_at : Option Nat
  updated_at : Option Nat
deriving DecidableEq

/-- Row of pdv.dividas (a debt header). -/
structure Divida where
  id : Nat
  tenant_id : Nat
  id_local : Option Int
  cliente_id : Option Nat
  usuario_id : Option Nat
  data_divida : Option Nat
  valor_total : Int
  valor_original : Int
  desconto_aplicado : Int
  percentual_desconto : Int
  valor_pago : Int
  status : String
  observacao : Option String
  created_at : Option Nat
  updated_at : Option Nat
deriving DecidableEq

/-- Row of pdv.itens_divida. -/
structure ItemDivida where
  divida_id : Nat
  produto_id : Nat
  quantidade : Int
  preco_unitario : Int
  subtotal : Int
  peso_kg : Int
deriving DecidableEq

/-- Row of pdv.pagamentos_divida. -/
structure PagamentoDivida where
  divida_id : Nat
  valor : Int
  forma_pagamento : String
  usuario_id : Option Nat
  data_pagamento : Option Nat
deriving DecidableEq

/-- The tenant-partitioned relational store. -/
structure DB where
  produtos : List Produto
  vendas : List Venda
  itens_venda : List ItemVenda
  clientes : List Cliente
  dividas : List Divida
  itens_divida : List ItemDivida
  pagamentos_divida : List PagamentoDivida
deriving DecidableEq

/-- Committed store plus the fresh-uuid source consumed by uuid.uuid4(). -/
structure SyncState where
  db : DB
  nextUuid : Nat
deriving DecidableEq

/-! Client payloads (the Dict[str, Any] of a SyncPushEvent, with exactly
the keys the handlers read). -/

/-- One entry of an order payload itens list. -/
structure ItemPayload where
  produto_codigo : Option String := none
  produto_id : IdField := .absent
  quantidade : Option Int := none
  preco_unitario : Option Int := none
  produto_preco_venda : Option Int := none
  subtotal : Option Int := none
  peso_kg : Option Int := none
deriving DecidableEq

/-- One entry of a debt payload pagamentos list. -/
structure PagamentoPayload where
  valor : Option Int := none
  forma_pagamento : Option String := none
  usuario_id : IdField := .absent
deriving DecidableEq

/-- A push-event payload: union of the keys read by the three handlers. -/
structure Payload where
  uuid : IdField := .absent
  id : IdField := .absent
  valor_total : Option Int := none
  total : Option Int := none
  created_at : Option Nat := none
  data_inicio : Option Nat := none
  forma_pagamento : Option String := none
  observacao_cozinha : Option String := none
  observacoes : Option String := none
  itens : List ItemPayload := []
  nome : Option String := none
  documento : Option String := none
  telefone : Option String := none
  endereco : Option String := none
  ativo : Option Bool := none
  id_local : Option Int := none
  cliente_id : IdField := .absent
  usuario_id : IdField := .absent
  valor_original : Option Int := none
  desconto_aplicado : Option Int := none
  percentual_desconto : Option Int := none
  valor_pago : Option Int := none
  status : Option String := none
  observacao : Option String := none
  pagamentos : List PagamentoPayload := []
deriving DecidableEq

/-- A SyncPushEvent of the request body. -/
structure SyncPushEvent where
  outbox_id : Int
  entity : String
  payload : Payload
deriving DecidableEq

/-- One per-event entry of the results list returned by push_changes. -/
structure SyncResult where
  outbox_id : Int
  ok : Bool
  error : Option String
deriving DecidableEq

/-! The pedido (order) handler, sync.py lines 74-166. -/

/-- Order total as the handler computes it:
float(payload.get("valor_total") or payload.get("total") or 0). -/
def payloadTotal (p : Payload) : Int :=
  ((truthyI p.valor_total).orElse (fun _ => truthyI p.total)).getD 0

/-- Item product resolution: parse produto_id, else tenant-scoped codigo
lookup; None when both fail (the handler then skips the item). -/
def resolveProdutoUuid (tenant : Nat) (produtos : List Produto) (it : ItemPayload) :
    Option Nat :=
  match it.produto_id.parse? with
  | some n => some n
  | none =>
    match truthyS it.produto_codigo with
    | some c => (produtos.find? (fun p => p.codigo == c && p.tenant_id == tenant)).map (fun p => p.id)
    | none => none

/-- The ItemVenda row the handler inserts for a resolved item. -/
def mkItemVenda (vendaId pid : Nat) (it : ItemPayload) : ItemVenda :=
  let quantidade := (truthyI it.quantidade).getD 1
  let preco := ((truthyI it.preco_unitario).orElse (fun _ => truthyI it.produto_preco_venda)).getD 0
  let sub := (truthyI it.subtotal).getD (quantidade * preco)
  { venda_id := vendaId, produto_id := pid, quantidade := max 1 quantidade,
    peso_kg := (truthyI it.peso_kg).getD 0, preco_unitario := preco, subtotal := sub,
    taxa_iva := 0, base_iva := sub, valor_iva := 0 }

/-- The Venda header row inserted when no row exists for (id, tenant). -/
def mkVenda (tenant vendaUuid : Nat) (p : Payload) : Venda :=
  { id := vendaUuid, tenant_id := tenant, usuario_id := none, cliente_id := none,
    total := payloadTotal p, desconto := 0,
    forma_pagamento := (truthyS p.forma_pagamento).getD "dinheiro",
    observacoes := (truthyS p.observacao_cozinha).orElse (fun _ => p.observacoes),
    cancelada := false,
    created_at := p.created_at.orElse (fun _ => p.data_inicio),
    updated_at := none }

/-- Apply one pedido event: missing uuid is rejected; an unparseable uuid
gets a fresh one; the header is upserted on (id, tenant); each resolvable
item is appended as a child row, unresolvable items are skipped. -/
def applyPedido (tenant : Nat) (st : SyncState) (ev : SyncPushEvent) :
    SyncState × SyncResult :=
  let p := ev.payload
  match p.uuid with
  | .absent => (st, { outbox_id := ev.outbox_id, ok := false, error := some "missing uuid" })
  | u =>
    let vendaUuid := match u with | .ok n => n | _ => st.nextUuid
    let nextUuid := match u with | .ok _ => st.nextUuid | _ => st.nextUuid + 1
    let existing := st.db.vendas.find? (fun v => v.id == vendaUuid && v.tenant_id == tenant)
    let vendas1 := match existing with
      | some _ => st.db.vendas
      | none => st.db.vendas ++ [mkVenda tenant vendaUuid p]
    let newItens := p.itens.filterMap (fun it =>
      (resolveProdutoUuid tenant st.db.produtos it).map (fun pid => mkItemVenda vendaUuid pid it))
    let db1 := { st.db with
      vendas := vendas1
      itens_venda := st.db.itens_venda ++ newItens }
    ({ db := db1, nextUuid := nextUuid },
     { outbox_id := ev.outbox_id, ok := true, error := none })

/-! The cliente (customer) handler, sync.py lines 168-204. -/

/-- The raw id value the customer handler parses:
payload.get("id") or payload.get("uuid"). -/
def cliIdField (p : Payload) : IdField :=
  match p.id with
  | .absent => p.uuid
  | x => x

/-- The Cliente row inserted when no row exists for (id, tenant). -/
def mkCliente (tenant cliId : Nat) (p : Payload) : Cliente :=
  let s := pyStrip ((truthyS p.nome).getD "")
  { id := cliId, tenant_id := tenant,
    nome := if s = "" then "Cliente" else s,
    documento := p.documento, telefone := p.telefone, endereco := p.endereco,
    ativo := p.ativo.getD true,
    created_at := none, updated_at := none }

/-- Partial update of an existing customer row: only keys present in the
payload overwrite columns; an empty nome keeps the old one (no trim). -/
def updCliente (p : Payload) (c : Cliente) : Cliente :=
  { c with
    nome := match p.nome with | none => c.nome | some s => if s = "" then c.nome else s
    documento := match p.documento with | none => c.documento | some s => some s
    telefone := match p.telefone with | none => c.telefone | some s => some s
    endereco := match p.endereco with | none => c.endereco | some s => some s
    ativo := match p.ativo with | none => c.ativo | some b => b }

/-- Apply one cliente event: an unresolvable id gets a fresh uuid; the row
is inserted or partially updated on (id, tenant); always ok. -/
def applyCliente (tenant : Nat) (st : SyncState) (ev : SyncPushEvent) :
    SyncState × SyncResult :=
  let p := ev.payload
  let cliId := ((cliIdField p).parse?).getD st.nextUuid
  let nextUuid := match (cliIdField p).parse? with | some _ => st.nextUuid | none => st.nextUuid + 1
  let clientes1 := match st.db.clientes.find? (fun c => c.id == cliId && c.tenant_id == tenant) with
    | some _ => st.db.clientes.map (fun c =>
        if c.id == cliId && c.tenant_id == tenant then updCliente p c else c)
    | none => st.db.clientes ++ [mkCliente tenant cliId p]
  ({ db := { st.db with clientes := clientes1 }, nextUuid := nextUuid },
   { outbox_id := ev.outbox_id, ok := true, error := none })

/-! The divida (debt) handler, sync.py lines 206-302. -/

/-- The Divida row inserted when no row exists for (id, tenant). -/
def mkDivida (tenant divId : Nat) (cid uid : Option Nat) (p : Payload) : Divida :=
  { id := divId, tenant_id := tenant, id_local := p.id_local,
    cliente_id := cid, usuario_id := uid, data_divida := none,
    valor_total := (truthyI p.valor_total).getD 0,
    valor_original := (truthyI p.valor_original).getD 0,
    desconto_aplicado := (truthyI p.desconto_aplicado).getD 0,
    percentual_desconto := (truthyI p.percentual_desconto).getD 0,
    valor_pago := (truthyI p.valor_pago).getD 0,
    status := (truthyS p.status).getD "Pendente",
    observacao := p.observacao,
    created_at := none, updated_at := none }

/-- Partial update of an existing debt header: only keys present in the
payload overwrite columns; an empty status keeps the old one. -/
def updDivida (p : Payload) (cid uid : Option Nat) (d : Divida) : Divida :=
  { d with
    id_local := match p.id_local with | none => d.id_local | some v => some v
    cliente_id := match cid with | none => d.cliente_id | some v => some v
    usuario_id := match uid with | none => d.usuario_id | some v => some v
    valor_total := match p.valor_total with | none => d.valor_total | some x => x
    valor_original := match p.valor_original with | none => d.valor_original | some x => x
    desconto_aplicado := match p.desconto_aplicado with | none => d.desconto_aplicado | some x => x
    percentual_desconto := match p.percentual_desconto with | none => d.percentual_desconto | some x => x
    valor_pago := match p.valor_pago with | none => d.valor_pago | some x => x
    status := match p.status with | none => d.status | some s => if s = "" then d.status else s
    observacao := match p.observacao with | none => d.observacao | some s => some s }

/-- Debt items to append: produto_id must parse and the product must exist
in the tenant, otherwise the entry is skipped. -/
def mkItensDivida (tenant divId : Nat) (produtos : List Produto) (itens : List ItemPayload) :
    List ItemDivida :=
  itens.filterMap (fun it =>
    match it.produto_id.parse? with
    | none => none
    | some pid =>
      if (produtos.find? (fun pr => pr.id == pid && pr.tenant_id == tenant)).isSome then
        some { divida_id := divId, produto_id := pid,
               quantidade := (truthyI it.quantidade).getD 0,
               preco_unitario := (truthyI it.preco_unitario).getD 0,
               subtotal := (truthyI it.subtotal).getD 0,
               peso_kg := (truthyI it.peso_kg).getD 0 }
      else none)

/-- Debt payments to append (no idempotency key: every push appends). -/
def mkPagamentosDivida (divId : Nat) (pgs : List PagamentoPayload) : List PagamentoDivida :=
  pgs.map (fun pg =>
    { divida_id := divId, valor := (truthyI pg.valor).getD 0,
      forma_pagamento := pg.forma_pagamento.getD "",
      usuario_id := pg.usuario_id.parse?, data_pagamento := none })

/-- Apply one divida event: an unresolvable id gets a fresh uuid; header
upserted on (id, tenant); items/payments appended; always ok. -/
def applyDivida (tenant : Nat) (st : SyncState) (ev : SyncPushEvent) :
    SyncState × SyncResult :=
  let p := ev.payload
  let divId := (p.id.parse?).getD st.nextUuid
  let nextUuid := match p.id.parse? with | some _ => st.nextUuid | none => st.nextUuid + 1
  let cid := p.cliente_id.parse?
  let uid := p.usuario_id.parse?
  let dividas1 := match st.db.dividas.find? (fun d => d.id == divId && d.tenant_id == tenant) with
    | some _ => st.db.dividas.map (fun d =>
        if d.id == divId && d.tenant_id == tenant then updDivida p cid uid d else d)
    | none => st.db.dividas ++ [mkDivida tenant divId cid uid p]
  let db1 := { st.db with
    dividas := dividas1
    itens_divida := st.db.itens_divida ++ mkItensDivida tenant divId st.db.produtos p.itens
    pagamentos_divida := st.db.pagamentos_divida ++ mkPagamentosDivida divId p.pagamentos }
  ({ db := db1, nextUuid := nextUuid },
   { outbox_id := ev.outbox_id, ok := true, error := none })

/-- Dispatch one event by its lower-cased entity tag; unknown kinds are a
successful no-op (forward compatibility). -/
def applyEvent (tenant : Nat) (st : SyncState) (ev : SyncPushEvent) :
    SyncState × SyncResult :=
  let entity := lowerStr ev.entity
  if entity = "pedido" then applyPedido tenant st ev
  else if entity = "cliente" then applyCliente tenant st ev
  else if entity = "divida" then applyDivida tenant st ev
  else (st, { outbox_id := ev.outbox_id, ok := true, error := none })

/-- The dispatch loop of push_changes, for an arbitrary fallible per-event
application: a raised error is caught, the per-event transaction is rolled
back (state unchanged since each event commits on success), an error
result is recorded, and the loop continues. -/
def pushLoop (apply : SyncState → SyncPushEvent → Except String (SyncState × SyncResult)) :
    SyncState → List SyncPushEvent → SyncState × List SyncResult
  | st, [] => (st, [])
  | st, ev :: rest =>
    match apply st ev with
    | .ok sr =>
      ((pushLoop apply sr.1 rest).1, sr.2 :: (pushLoop apply sr.1 rest).2)
    | .error e =>
      ((pushLoop apply st rest).1,
       { outbox_id := ev.outbox_id, ok := false, error := some e } :: (pushLoop apply st rest).2)

/-- POST /api/sync/push: run every event through the dispatch loop. -/
def push_changes (tenant : Nat) (events : List SyncPushEvent) (st : SyncState) :
    SyncState × List SyncResult :=
  pushLoop (fun s e => .ok (applyEvent tenant s e)) st events

/-! GET /api/sync/pull, sync.py lines 317-581. -/

/-- Ascending comparison on nullable updated_at (NULLS LAST, as Postgres
orders ascending). -/
def leUpd (a b : Option Nat) : Bool :=
  match a, b with
  | some x, some y => x ≤ y
  | some _, none => true
  | none, some _ => false
  | none, none => true

/-- The strict watermark filter: applied only when since parses; SQL NULL
never satisfies updated_at > since. -/
def sinceOk (since : Option Nat) (u : Option Nat) : Bool :=
  match since with
  | none => true
  | some s => match u with | some t => s < t | none => false

/-- Effective page size: max(1, min(int(limit or 500), 1000)); a zero
limit is falsy in Python and falls back to the 500 default. -/
def effLimit (limit : Int) : Int :=
  max 1 (min (if limit = 0 then 500 else limit) 1000)

/-- The orders page: tenant-scoped, non-cancelled, strictly newer than
since, ordered ascending by updated_at, first effLimit rows. -/
def pullVendaRows (tenant : Nat) (since : Option Nat) (limit : Int) (db : DB) : List Venda :=
  ((sortLe (fun a b => leUpd a.updated_at b.updated_at)
      ((db.vendas.filter (fun v => v.tenant_id == tenant && v.cancelada == false)).filter
        (fun v => sinceOk since v.updated_at))).take (effLimit limit).toNat)

/-- The customers page. -/
def pullClienteRows (tenant : Nat) (since : Option Nat) (limit : Int) (db : DB) : List Cliente :=
  ((sortLe (fun a b => leUpd a.updated_at b.updated_at)
      ((db.clientes.filter (fun c => c.tenant_id == tenant)).filter
        (fun c => sinceOk since c.updated_at))).take (effLimit limit).toNat)

/-- The debts page. -/
def pullDividaRows (tenant : Nat) (since : Option Nat) (limit : Int) (db : DB) : List Divida :=
  ((sortLe (fun a b => leUpd a.updated_at b.updated_at)
      ((db.dividas.filter (fun d => d.tenant_id == tenant)).filter
        (fun d => sinceOk since d.updated_at))).take (effLimit limit).toNat)

/-- Tenant-scoped product snapshot lookup used for denormalization. -/
def produtoSnapshot (tenant pid : Nat) (produtos : List Produto) : Option Produto :=
  produtos.find? (fun p => p.id == pid && p.tenant_id == tenant)

/-- A denormalized order line item of the feed. -/
structure ItemOut where
  uuid : Nat × Nat
  produto_id : Nat
  produto_codigo : Option String
  produto_nome : Option String
  produto_preco_venda : Option Int
  quantidade : Int
  preco_unitario : Int
  created_at : Option Nat
  updated_at : Option Nat
deriving DecidableEq

/-- A feed order (the pedido dict built by pull_changes). -/
structure PedidoOut where
  uuid : Nat
  usuario_id : Option Nat
  valor_total : Int
  valor_recebido : Int
  observacao_cozinha : Option String
  data_inicio : Option Nat
  created_at : Option Nat
  updated_at : Option Nat
  itens : List ItemOut
deriving DecidableEq

/-- A feed customer. -/
structure ClienteOut where
  id : Nat
  nome : String
  documento : Option String
  telefone : Option String
  endereco : Option String
  ativo : Bool
  created_at : Option Nat
  updated_at : Option Nat
deriving DecidableEq

/-- A feed debt item. -/
structure DivItemOut where
  produto_id : Nat
  produto_codigo : Option String
  produto_nome : Option String
  produto_preco_venda : Option Int
  quantidade : Int
  preco_unitario : Int
  subtotal : Int
  peso_kg : Int
deriving DecidableEq

/-- A feed debt payment. -/
structure PagOut where
  data_pagamento : Option Nat
  valor : Int
  forma_pagamento : String
  usuario_id : Option Nat
deriving DecidableEq

/-- A feed debt. -/
structure DividaOut where
  id : Nat
  id_local : Option Int
  cliente_id : Option Nat
  usuario_id : Option Nat
  data_divida : Option Nat
  valor_total : Int
  valor_original : Int
  desconto_aplicado : Int
  percentual_desconto : Int
  valor_pago : Int
  status : String
  observacao : Option String
  created_at : Option Nat
  updated_at : Option Nat
  itens : List DivItemOut
  pagamentos : List PagOut
deriving DecidableEq

/-- The response of pull_changes. -/
structure PullResponse where
  server_now : Nat
  pedidos : List PedidoOut
  clientes : List ClienteOut
  dividas : List DividaOut
  next_since : Option Nat
  since : Option Nat
  limit : Int
deriving DecidableEq

/-- The timestamp a row contributes to the watermark:
updated_at or created_at (Python or on the two getattr results). -/
def tsVenda (v : Venda) : Option Nat := v.updated_at.orElse (fun _ => v.created_at)

/-- Watermark timestamp of a customer row. -/
def tsCliente (c : Cliente) : Option Nat := c.updated_at.orElse (fun _ => c.created_at)

/-- Watermark timestamp of a debt row. -/
def tsDivida (d : Divida) : Option Nat := d.updated_at.orElse (fun _ => d.created_at)

/-- Denormalize one order row into its feed dict. -/
def vendaOut (tenant : Nat) (db : DB) (v : Venda) : PedidoOut :=
  let vUpd := tsVenda v
  { uuid := v.id, usuario_id := v.usuario_id, valor_total := v.total,
    valor_recebido := v.total, observacao_cozinha := v.observacoes,
    data_inicio := v.created_at, created_at := v.created_at, updated_at := vUpd,
    itens := (db.itens_venda.filter (fun it => it.venda_id == v.id)).map (fun it =>
      let pm := produtoSnapshot tenant it.produto_id db.produtos
      { uuid := (v.id, it.produto_id), produto_id := it.produto_id,
        produto_codigo := pm.map (fun p => p.codigo),
        produto_nome := pm.map (fun p => p.nome),
        produto_preco_venda := pm.map (fun p => p.preco_venda),
        quantidade := if it.quantidade = (0 : Int) then 1 else it.quantidade,
        preco_unitario := it.preco_unitario,
        created_at := vUpd, updated_at := vUpd }) }

/-- Project one customer row into its feed dict. -/
def clienteOut (c : Cliente) : ClienteOut :=
  { id := c.id, nome := c.nome, documento := c.documento, telefone := c.telefone,
    endereco := c.endereco, ativo := c.ativo, created_at := c.created_at,
    updated_at := tsCliente c }

/-- Denormalize one debt row into its feed dict. -/
def dividaOut (tenant : Nat) (db : DB) (d : Divida) : DividaOut :=
  { id := d.id, id_local := d.id_local, cliente_id := d.cliente_id,
    usuario_id := d.usuario_id, data_divida := d.data_divida,
    valor_total := d.valor_total, valor_original := d.valor_original,
    desconto_aplicado := d.desconto_aplicado, percentual_desconto := d.percentual_desconto,
    valor_pago := d.valor_pago, status := d.status, observacao := d.observacao,
    created_at := d.created_at, updated_at := tsDivida d,
    itens := (db.itens_divida.filter (fun it => it.divida_id == d.id)).map (fun it =>
      let pm := produtoSnapshot tenant it.produto_id db.produtos
      { produto_id := it.produto_id,
        produto_codigo := pm.map (fun p => p.codigo),
        produto_nome := pm.map (fun p => p.nome),
        produto_preco_venda := pm.map (fun p => p.preco_venda),
        quantidade := it.quantidade, preco_unitario := it.preco_unitario,
        subtotal := it.subtotal, peso_kg := it.peso_kg }),
    pagamentos := (db.pagamentos_divida.filter (fun pg => pg.divida_id == d.id)).map (fun pg =>
      { data_pagamento := pg.data_pagamento, valor := pg.valor,
        forma_pagamento := pg.forma_pagamento, usuario_id := pg.usuario_id }) }

/-- The max_updated accumulator: each row with a non-null timestamp simply
overwrites the accumulator (an assignment, not a maximum). -/
def stepWatermark (acc : Option Nat) (o : Option Nat) : Option Nat :=
  o.orElse (fun _ => acc)

/-- GET /api/sync/pull: three independent pages, denormalized, plus the
shared watermark swept over orders, then customers, then debts. -/
def pull_changes (tenant : Nat) (since : Option Nat) (limit : Int) (now : Nat) (db : DB) :
    PullResponse :=
  let vRows := pullVendaRows tenant since limit db
  let cRows := pullClienteRows tenant since limit db
  let dRows := pullDividaRows tenant since limit db
  let nextSince := List.foldl stepWatermark none
    (vRows.map tsVenda ++ cRows.map tsCliente ++ dRows.map tsDivida)
  { server_now := now,
    pedidos := vRows.map (vendaOut tenant db),
    clientes := cRows.map clienteOut,
    dividas := dRows.map (dividaOut tenant db),
    next_since := nextSince,
    since := since,
    limit := effLimit limit }

/-! Generic lemmas about the embedded operations. -/

/-- Empty store. -/
def emptyDB : DB := ⟨[], [], [], [], [], [], []⟩

/-- Example push state for witnesses and counterexamples. -/
def exStEmpty : SyncState := ⟨emptyDB, 100⟩

/-- Example per-event application that fails on outbox id 2. -/
def exFailApply : SyncState → SyncPushEvent → Except String (SyncState × SyncResult) :=
  fun s e => if e.outbox_id = 2 then .error "boom" else .ok (applyEvent 1 s e)

/-- Example customer event. -/
def exEvA : SyncPushEvent :=
  { outbox_id := 1, entity := "cliente", payload := { id := .ok 3, nome := some "Ana" } }

/-- Example customer event that the failing application rejects. -/
def exEvB : SyncPushEvent :=
  { outbox_id := 2, entity := "cliente", payload := { id := .ok 4 } }

/-- Example debt event. -/
def exEvC : SyncPushEvent :=
  { outbox_id := 3, entity := "divida", payload := { id := .ok 5 } }

/-- Example order rows with a tied updated_at, stored id 2 before id 1. -/
def exV2 : Venda :=
  { id := 2, tenant_id := 1, usuario_id := none, cliente_id := none,
    total := 5, desconto := 0, forma_pagamento := "dinheiro", observacoes := none,
    cancelada := false, created_at := some 1, updated_at := some 5 }

/-- Second tied example order row. -/
def exV1 : Venda := { exV2 with id := 1 }

/-- Example store for the pull-page counterexample. -/
def exDB7 : DB := { emptyDB with vendas := [exV2, exV1] }

/-- Example order row with updated_at 10. -/
def exW : Venda :=
  { id := 11, tenant_id := 1, usuario_id := none, cliente_id := none,
    total := 5, desconto := 0, forma_pagamento := "dinheiro", observacoes := none,
    cancelada := false, created_at := some 1, updated_at := some 10 }

/-- Example customer row with the older updated_at 5. -/
def exK : Cliente :=
  { id := 12, tenant_id := 1, nome := "Ana", documento := none, telefone := none,
    endereco := none, ativo := true, created_at := some 1, updated_at := some 5 }

/-- Example store for the watermark counterexample. -/
def exDB2 : DB := { emptyDB with vendas := [exW], clientes := [exK] }

/-- Status column as the debt handler computes it from the payload:
keep the old (or default) status when the key is absent or empty,
otherwise take the payload string verbatim. -/
def statusFromPayload (o : Option String) (old : String) : String :=
  match o with
  | none => old
  | some s => if s = "" then old else s

/-- Example customer event with a space-padded name. -/
def exEv4 : SyncPushEvent :=
  { outbox_id := 1, entity := "cliente", payload := { id := .ok 3, nome := some " Bob" } }

/-- Example customer event with an already-stripped name. -/
def exEv4b : SyncPushEvent :=
  { outbox_id := 1, entity := "cliente", payload := { id := .ok 3, nome := some "Bob" } }

/-- Example order event whose only item has an unknown product code. -/
def exEv3 : SyncPushEvent :=
  { outbox_id := 1, entity := "pedido",
    payload := { uuid := .ok 7, valor_total := some 30,
                 itens := [{ produto_codigo := some "X" }] } }

/-- Example debt event fully paid but carrying status Pendente. -/
def exEv6 : SyncPushEvent :=
  { outbox_id := 1, entity := "divida",
    payload := { id := .ok 4, valor_total := some 50, valor_pago := some 50,
                 status := some "Pendente" } }

/-- Example debt event unpaid but carrying status Quitada. -/
def exEv6b : SyncPushEvent :=
  { outbox_id := 2, entity := "divida",
    payload := { id := .ok 5, valor_total := some 50, valor_pago := some 0,
                 status := some "Quitada" } }

/-- Example product present in the tenant. -/
def exPr8 : Produto := { id := 77, tenant_id := 1, codigo := "P", nome := "prod", preco_venda := 10 }

/-- Example state holding that product. -/
def exSt8 : SyncState := ⟨{ emptyDB with produtos := [exPr8] }, 100⟩

/-- Example order event claiming total 999 against one item of subtotal 20. -/
def exEv8 : SyncPushEvent :=
  { outbox_id := 1, entity := "pedido",
    payload := { uuid := .ok 8, valor_total := some 999,
                 itens := [{ produto_id := .ok 77, subtotal := some 20 }] } }

/-- Example customer event with no id at all. -/
def exEv9 : SyncPushEvent := { outbox_id := 1, entity := "cliente", payload := {} }

/-- Example order event with no uuid. -/
def exEv9b : SyncPushEvent := { outbox_id := 3, entity := "pedido", payload := {} }

/-- The dispatch loop distributes over batch concatenation: the tail batch
runs from the state the head batch committed. -/
theorem pushLoop_append
    (apply : SyncState → SyncPushEvent → Except String (SyncState × SyncResult))
    (l1 l2 : List SyncPushEvent) :
    ∀ st : SyncState,
      pushLoop apply st (l1 ++ l2) =
        ((pushLoop apply (pushLoop apply st l1).1 l2).1,
         (pushLoop apply st l1).2 ++ (pushLoop apply (pushLoop apply st l1).1 l2).2) := by
  induction l1 with
  | nil => intro st; simp [pushLoop]
  | cons ev rest ih =>
    intro st
    cases h : apply st ev with
    | ok sr => simp [pushLoop, h, ih]
    | error e => simp [pushLoop, h, ih]

/-- The order handler replies with the outbox id of its event. -/
theorem applyPedido_outbox (tenant : Nat) (st : SyncState) (ev : SyncPushEvent) :
    (applyPedido tenant st ev).2.outbox_id = ev.outbox_id := by
  cases h : ev.payload.uuid <;> simp [applyPedido, h]

/-- The customer handler replies with the outbox id of its event. -/
theorem applyCliente_outbox (tenant : Nat) (st : SyncState) (ev : SyncPushEvent) :
    (applyCliente tenant st ev).2.outbox_id = ev.outbox_id := rfl

/-- The debt handler replies with the outbox id of its event. -/
theorem applyDivida_outbox (tenant : Nat) (st : SyncState) (ev : SyncPushEvent) :
    (applyDivida tenant st ev).2.outbox_id = ev.outbox_id := rfl

/-- Every handler reply carries the outbox id of its event. -/
theorem applyEvent_outbox (tenant : Nat) (st : SyncState) (ev : SyncPushEvent) :
    (applyEvent tenant st ev).2.outbox_id = ev.outbox_id := by
  simp only [applyEvent]
  split_ifs
  · exact applyPedido_outbox tenant st ev
  · exact applyCliente_outbox tenant st ev
  · exact applyDivida_outbox tenant st ev
  · rfl

/-- The dispatch loop emits one result per event, tagged in input order,
provided the per-event application tags its reply with the event id (as
every handler of push_changes does). -/
theorem pushLoop_outbox
    (apply : SyncState → SyncPushEvent → Except String (SyncState × SyncResult))
    (hap : ∀ s e sr, apply s e = .ok sr → sr.2.outbox_id = e.outbox_id)
    (evs : List SyncPushEvent) :
    ∀ st : SyncState,
      (pushLoop apply st evs).2.map SyncResult.outbox_id = evs.map SyncPushEvent.outbox_id := by
  induction evs with
  | nil => intro st; simp [pushLoop]
  | cons ev rest ih =>
    intro st
    cases h : apply st ev with
    | ok sr => simp [pushLoop, h, ih, hap st ev sr h]
    | error e => simp [pushLoop, h, ih]

/-- C1.  For every push batch and failing event k: the coordinator records
an ok=false result with the error string for k, keeps the state committed
by events 1..k-1, still attempts events k+1..n from that state, never lets
the error escape the loop (the equation itself returns normally), and
returns exactly one result per input event in input order. -/
theorem push_batch_failure_isolation :
    (∀ (apply : SyncState → SyncPushEvent → Except String (SyncState × SyncResult))
       (st : SyncState) (es1 : List SyncPushEvent) (ev : SyncPushEvent)
       (es2 : List SyncPushEvent) (e : String),
       apply (pushLoop apply st es1).1 ev = .error e →
       pushLoop apply st (es1 ++ ev :: es2) =
         ((pushLoop apply (pushLoop apply st es1).1 es2).1,
          (pushLoop apply st es1).2 ++
            { outbox_id := ev.outbox_id, ok := false, error := some e } ::
              (pushLoop apply (pushLoop apply st es1).1 es2).2)) ∧
    (∀ (tenant : Nat) (st : SyncState) (evs : List SyncPushEvent),
       (push_changes tenant evs st).2.map SyncResult.outbox_id =
         evs.map SyncPushEvent.outbox_id) := by
  constructor
  · intro apply st es1 ev es2 e h
    rw [pushLoop_append]
    have hmid : pushLoop apply (pushLoop apply st es1).1 (ev :: es2) =
        ((pushLoop apply (pushLoop apply st es1).1 es2).1,
         { outbox_id := ev.outbox_id, ok := false, error := some e } ::
           (pushLoop apply (pushLoop apply st es1).1 es2).2) := by
      simp [pushLoop, h]
    rw [hmid]
  · intro tenant st evs
    exact pushLoop_outbox _ (fun s e sr h => by
      cases h' : applyEvent tenant s e
      · cases h
        exact applyEvent_outbox tenant s e) evs st

/-- Witness for C1: a concrete 3-event batch whose middle event fails. -/
theorem push_batch_failure_isolation_witness :
    pushLoop exFailApply exStEmpty ([exEvA] ++ exEvB :: [exEvC]) =
      ((pushLoop exFailApply (pushLoop exFailApply exStEmpty [exEvA]).1 [exEvC]).1,
       (pushLoop exFailApply exStEmpty [exEvA]).2 ++
         { outbox_id := exEvB.outbox_id, ok := false, error := some "boom" } ::
           (pushLoop exFailApply (pushLoop exFailApply exStEmpty [exEvA]).1 [exEvC]).2) :=
  push_batch_failure_isolation.1 exFailApply exStEmpty [exEvA] exEvB [exEvC] "boom" rfl

/-- Membership in a stable insert. -/
theorem mem_insertLe {α : Type} (le : α → α → Bool) (x : α) (l : List α) (a : α) :
    a ∈ insertLe le x l ↔ a = x ∨ a ∈ l := by
  induction l with
  | nil => simp [insertLe]
  | cons y ys ih =>
    by_cases h : le x y
    · simp [insertLe, h]
    · simp only [insertLe, if_neg h, List.mem_cons, ih]
      tauto

/-- Inserting into a sorted list keeps it sorted, for a total transitive
boolean preorder. -/
theorem pairwise_insertLe {α : Type} (le : α → α → Bool)
    (htot : ∀ a b, le a b = true ∨ le b a = true)
    (htrans : ∀ a b c, le a b = true → le b c = true → le a c = true)
    (x : α) (l : List α) (hl : l.Pairwise (fun a b => le a b = true)) :
    (insertLe le x l).Pairwise (fun a b => le a b = true) := by
  induction l with
  | nil => simp [insertLe]
  | cons y ys ih =>
    rcases List.pairwise_cons.mp hl with ⟨hy, hys⟩
    by_cases h : le x y
    · simp only [insertLe, if_pos h]
      refine List.pairwise_cons.mpr ⟨?_, hl⟩
      intro b hb
      rcases List.mem_cons.mp hb with rfl | hb
      · exact h
      · exact htrans x y b h (hy b hb)
    · simp only [insertLe, if_neg h]
      refine List.pairwise_cons.mpr ⟨?_, ih hys⟩
      intro b hb
      rcases (mem_insertLe le x ys b).mp hb with rfl | hb
      · rcases htot b y with hxy | hyx
        · exact absurd hxy h
        · exact hyx
      · exact hy b hb

/-- The stable sort is sorted, for a total transitive boolean preorder. -/
theorem pairwise_sortLe {α : Type} (le : α → α → Bool)
    (htot : ∀ a b, le a b = true ∨ le b a = true)
    (htrans : ∀ a b c, le a b = true → le b c = true → le a c = true)
    (l : List α) :
    (sortLe le l).Pairwise (fun a b => le a b = true) := by
  induction l with
  | nil => simp [sortLe]
  | cons x xs ih => exact pairwise_insertLe le htot htrans x (sortLe le xs) ih

/-- Membership in the stable sort. -/
theorem mem_sortLe {α : Type} (le : α → α → Bool) (l : List α) (a : α) :
    a ∈ sortLe le l ↔ a ∈ l := by
  induction l with
  | nil => simp [sortLe]
  | cons x xs ih => simp [sortLe, mem_insertLe, ih]

/-- The nullable ascending order is total. -/
theorem leUpd_total (a b : Option Nat) : leUpd a b = true ∨ leUpd b a = true := by
  cases a <;> cases b <;> simp [leUpd] <;> omega

/-- The nullable ascending order is transitive. -/
theorem leUpd_trans (a b c : Option Nat) :
    leUpd a b = true → leUpd b c = true → leUpd a c = true := by
  cases a <;> cases b <;> cases c <;> simp [leUpd] <;> omega

/-- What the orders page guarantees about each of its rows. -/
theorem mem_pullVendaRows {tenant : Nat} {since : Option Nat} {limit : Int} {db : DB}
    {v : Venda} (hv : v ∈ pullVendaRows tenant since limit db) :
    v ∈ db.vendas ∧ v.tenant_id = tenant ∧ v.cancelada = false ∧
      sinceOk since v.updated_at = true := by
  have h1 := List.mem_of_mem_take hv
  have h2 := (mem_sortLe _ _ _).mp h1
  rcases List.mem_filter.mp h2 with ⟨h3, hsince⟩
  rcases List.mem_filter.mp h3 with ⟨h4, hten⟩
  simp only [Bool.and_eq_true, beq_iff_eq] at hten
  exact ⟨h4, hten.1, by simpa using hten.2, hsince⟩

/-- What the customers page guarantees about each of its rows. -/
theorem mem_pullClienteRows {tenant : Nat} {since : Option Nat} {limit : Int} {db : DB}
    {c : Cliente} (hc : c ∈ pullClienteRows tenant since limit db) :
    c ∈ db.clientes ∧ c.tenant_id = tenant ∧ sinceOk since c.updated_at = true := by
  have h1 := List.mem_of_mem_take hc
  have h2 := (mem_sortLe _ _ _).mp h1
  rcases List.mem_filter.mp h2 with ⟨h3, hsince⟩
  rcases List.mem_filter.mp h3 with ⟨h4, hten⟩
  simp only [beq_iff_eq] at hten
  exact ⟨h4, hten, hsince⟩

/-- What the debts page guarantees about each of its rows. -/
theorem mem_pullDividaRows {tenant : Nat} {since : Option Nat} {limit : Int} {db : DB}
    {d : Divida} (hd : d ∈ pullDividaRows tenant since limit db) :
    d ∈ db.dividas ∧ d.tenant_id = tenant ∧ sinceOk since d.updated_at = true := by
  have h1 := List.mem_of_mem_take hd
  have h2 := (mem_sortLe _ _ _).mp h1
  rcases List.mem_filter.mp h2 with ⟨h3, hsince⟩
  rcases List.mem_filter.mp h3 with ⟨h4, hten⟩
  simp only [beq_iff_eq] at hten
  exact ⟨h4, hten, hsince⟩

/-- Length bound of a page. -/
theorem pullVendaRows_length (tenant : Nat) (since : Option Nat) (limit : Int) (db : DB) :
    (pullVendaRows tenant since limit db).length ≤ (effLimit limit).toNat :=
  List.length_take_le _ _

/-- Sortedness of a page by updated_at. -/
theorem pullVendaRows_sorted (tenant : Nat) (since : Option Nat) (limit : Int) (db : DB) :
    (pullVendaRows tenant since limit db).Pairwise
      (fun a b => leUpd a.updated_at b.updated_at = true) :=
  List.Pairwise.sublist (List.take_sublist _ _)
    (pairwise_sortLe (fun a b => leUpd a.updated_at b.updated_at)
      (fun (a b : Venda) => leUpd_total a.updated_at b.updated_at)
      (fun (a b c : Venda) => leUpd_trans a.updated_at b.updated_at c.updated_at) _)

/-- Sortedness of the customers page. -/
theorem pullClienteRows_sorted (tenant : Nat) (since : Option Nat) (limit : Int) (db : DB) :
    (pullClienteRows tenant since limit db).Pairwise
      (fun a b => leUpd a.updated_at b.updated_at = true) :=
  List.Pairwise.sublist (List.take_sublist _ _)
    (pairwise_sortLe (fun a b => leUpd a.updated_at b.updated_at)
      (fun (a b : Cliente) => leUpd_total a.updated_at b.updated_at)
      (fun (a b c : Cliente) => leUpd_trans a.updated_at b.updated_at c.updated_at) _)

/-- Sortedness of the debts page. -/
theorem pullDividaRows_sorted (tenant : Nat) (since : Option Nat) (limit : Int) (db : DB) :
    (pullDividaRows tenant since limit db).Pairwise
      (fun a b => leUpd a.updated_at b.updated_at = true) :=
  List.Pairwise.sublist (List.take_sublist _ _)
    (pairwise_sortLe (fun a b => leUpd a.updated_at b.updated_at)
      (fun (a b : Divida) => leUpd_total a.updated_at b.updated_at)
      (fun (a b c : Divida) => leUpd_trans a.updated_at b.updated_at c.updated_at) _)

/-- Counterexample to C7 as stated: with limit 0 the claimed clamp to
[1, 1000] would allow at most 1 row, yet 2 rows are returned (limit 0 is
falsy and becomes the 500 default); and the tied rows come back in store
order [2, 1], not ascending by (updated_at, id). -/
theorem pull_page_limit_order_cex :
    (pullVendaRows 1 none 0 exDB7).length = 2 ∧
    (pullVendaRows 1 none 0 exDB7).map Venda.id = [2, 1] := by decide

/-- C7 amended.  Each page is tenant-scoped, strictly newer than since
(cancelled orders also excluded), sorted ascending by updated_at alone
(ties in store order), and holds at most effLimit rows, where
effLimit limit = max 1 (min (if limit = 0 then 500 else limit) 1000). -/
theorem pull_page_bounds :
    ∀ (tenant : Nat) (since : Option Nat) (limit : Int) (db : DB),
      ((∀ v ∈ pullVendaRows tenant since limit db,
          v.tenant_id = tenant ∧ v.cancelada = false ∧ sinceOk since v.updated_at = true) ∧
       (pullVendaRows tenant since limit db).length ≤ (effLimit limit).toNat ∧
       (pullVendaRows tenant since limit db).Pairwise
         (fun a b => leUpd a.updated_at b.updated_at = true)) ∧
      ((∀ c ∈ pullClienteRows tenant since limit db,
          c.tenant_id = tenant ∧ sinceOk since c.updated_at = true) ∧
       (pullClienteRows tenant since limit db).length ≤ (effLimit limit).toNat ∧
       (pullClienteRows tenant since limit db).Pairwise
         (fun a b => leUpd a.updated_at b.updated_at = true)) ∧
      ((∀ d ∈ pullDividaRows tenant since limit db,
          d.tenant_id = tenant ∧ sinceOk since d.updated_at = true) ∧
       (pullDividaRows tenant since limit db).length ≤ (effLimit limit).toNat ∧
       (pullDividaRows tenant since limit db).Pairwise
         (fun a b => leUpd a.updated_at b.updated_at = true)) ∧
      (∀ s u, sinceOk (some s) u = true → ∃ t, u = some t ∧ s < t) := by
  intro tenant since limit db
  refine ⟨⟨?_, pullVendaRows_length tenant since limit db,
            pullVendaRows_sorted tenant since limit db⟩,
          ⟨?_, List.length_take_le _ _, pullClienteRows_sorted tenant since limit db⟩,
          ⟨?_, List.length_take_le _ _, pullDividaRows_sorted tenant since limit db⟩, ?_⟩
  · intro v hv
    exact (mem_pullVendaRows hv).2
  · intro c hc
    exact (mem_pullClienteRows hc).2
  · intro d hd
    exact (mem_pullDividaRows hd).2
  · intro s u h
    cases u with
    | none => simp [sinceOk] at h
    | some t => exact ⟨t, rfl, by simpa [sinceOk] using h⟩

/-- Witness for C7 amended, at a concrete page. -/
theorem pull_page_bounds_witness :
    exV2 ∈ pullVendaRows 1 none 3 exDB7 ∧
      (exV2.tenant_id = 1 ∧ exV2.cancelada = false ∧ sinceOk none exV2.updated_at = true) :=
  ⟨by decide, (pull_page_bounds 1 none 3 exDB7).1.1 exV2 (by decide)⟩

/-- C10.  The orders feed is exactly the denormalized non-cancelled page:
a row with cancelada = true is never returned, whatever its updated_at
relative to since. -/
theorem pull_excludes_cancelled :
    ∀ (tenant : Nat) (since : Option Nat) (limit : Int) (now : Nat) (db : DB),
      (pull_changes tenant since limit now db).pedidos =
        (pullVendaRows tenant since limit db).map (vendaOut tenant db) ∧
      ∀ v ∈ pullVendaRows tenant since limit db, v.cancelada = false := by
  intro tenant since limit now db
  refine ⟨rfl, ?_⟩
  intro v hv
  exact (mem_pullVendaRows hv).2.2.1

/-- Witness for C10 at a concrete store. -/
theorem pull_excludes_cancelled_witness :
    exV2 ∈ pullVendaRows 1 none 3 exDB7 ∧ exV2.cancelada = false :=
  ⟨by decide, (pull_excludes_cancelled 1 none 3 0 exDB7).2 exV2 (by decide)⟩

/-- The max_updated sweep computes the last non-null timestamp, not a
maximum: folding stepWatermark is taking the last some of the list. -/
theorem foldl_stepWatermark (l : List (Option Nat)) :
    ∀ acc : Option Nat,
      List.foldl stepWatermark acc l = ((l.filterMap id).getLast?).orElse (fun _ => acc) := by
  induction l with
  | nil => intro acc; simp [Option.orElse]
  | cons o rest ih =>
    intro acc
    cases o with
    | none => simp [List.foldl, stepWatermark, Option.orElse, ih]
    | some t =>
      simp only [List.foldl]
      rw [ih]
      cases hfm : rest.filterMap id with
      | nil => simp [hfm, stepWatermark, Option.orElse]
      | cons b bs =>
        cases hlast : (b :: bs).getLast? with
        | none =>
          have h' := List.getLast?_isSome (l := b :: bs)
          rw [hlast] at h'
          simp at h'
        | some x => simp [hfm, List.getLast?_cons_cons, hlast, Option.orElse]

/-- Counterexample to C2 as stated: the feed returns an order with
updated_at 10 and a customer with updated_at 5, yet next_since is 5 (the
last processed row wins, it is not the maximum across entity types); and
on an empty feed next_since is none, not the input since 99. -/
theorem pull_next_since_not_max :
    (pull_changes 1 none 500 0 exDB2).next_since = some 5 ∧
    (pull_changes 1 none 500 0 exDB2).pedidos.map PedidoOut.updated_at = [some 10] ∧
    (pull_changes 1 (some 99) 500 0 exDB2).next_since = none := by decide

/-- C2 amended.  next_since is the last non-null timestamp (updated_at,
falling back to created_at) over the returned rows in processing order:
orders, then customers, then debts — so the last row of the last entity
type with rows wins; with no rows at all it is none, not the input since. -/
theorem pull_next_since_last_timestamp :
    ∀ (tenant : Nat) (since : Option Nat) (limit : Int) (now : Nat) (db : DB),
      (pull_changes tenant since limit now db).next_since =
        (((pullVendaRows tenant since limit db).map tsVenda ++
          (pullClienteRows tenant since limit db).map tsCliente ++
          (pullDividaRows tenant since limit db).map tsDivida).filterMap id).getLast? := by
  intro tenant since limit now db
  show List.foldl stepWatermark none _ = _
  rw [foldl_stepWatermark]
  cases h : (((pullVendaRows tenant since limit db).map tsVenda ++
      (pullClienteRows tenant since limit db).map tsCliente ++
      (pullDividaRows tenant since limit db).map tsDivida).filterMap id).getLast? with
  | none => simp [Option.orElse]
  | some t => simp [Option.orElse]

/-! Push-side lemmas: dispatch reduction, upsert characterizations,
idempotence of the partial-update setters. -/
theorem applyEvent_eq_pedido (tenant : Nat) (st : SyncState) (ev : SyncPushEvent)
    (h : lowerStr ev.entity = "pedido") :
    applyEvent tenant st ev = applyPedido tenant st ev := by
  simp [applyEvent, h]

theorem applyEvent_eq_cliente (tenant : Nat) (st : SyncState) (ev : SyncPushEvent)
    (h : lowerStr ev.entity = "cliente") :
    applyEvent tenant st ev = applyCliente tenant st ev := by
  simp [applyEvent, h]

theorem applyEvent_eq_divida (tenant : Nat) (st : SyncState) (ev : SyncPushEvent)
    (h : lowerStr ev.entity = "divida") :
    applyEvent tenant st ev = applyDivida tenant st ev := by
  simp [applyEvent, h]

theorem lowerStr_pedido : lowerStr "pedido" = "pedido" := rfl

theorem lowerStr_cliente : lowerStr "cliente" = "cliente" := rfl

theorem lowerStr_divida : lowerStr "divida" = "divida" := rfl

theorem updCliente_idem (p : Payload) (c : Cliente) :
    updCliente p (updCliente p c) = updCliente p c := by
  simp only [updCliente]
  congr 1
  · cases hn : p.nome with
    | none => rfl
    | some s => by_cases h : s = "" <;> simp [h]
  · cases p.documento <;> rfl
  · cases p.telefone <;> rfl
  · cases p.endereco <;> rfl
  · cases p.ativo <;> rfl

theorem updDivida_idem (p : Payload) (cid uid : Option Nat) (d : Divida) :
    updDivida p cid uid (updDivida p cid uid d) = updDivida p cid uid d := by
  simp only [updDivida]
  congr 1
  · cases p.id_local <;> rfl
  · cases cid <;> rfl
  · cases uid <;> rfl
  · cases p.valor_total <;> rfl
  · cases p.valor_original <;> rfl
  · cases p.desconto_aplicado <;> rfl
  · cases p.percentual_desconto <;> rfl
  · cases p.valor_pago <;> rfl
  · cases hs : p.status with
    | none => rfl
    | some s => by_cases h : s = "" <;> simp [h]
  · cases p.observacao <;> rfl

theorem updCliente_tenant (p : Payload) (c : Cliente) :
    (updCliente p c).tenant_id = c.tenant_id := rfl

theorem updCliente_id (p : Payload) (c : Cliente) :
    (updCliente p c).id = c.id := rfl

theorem updCliente_mkCliente (p : Payload) (t n : Nat)
    (hnome : ∀ s, p.nome = some s → pyStrip s = s) :
    updCliente p (mkCliente t n p) = mkCliente t n p := by
  simp only [updCliente, mkCliente]
  congr 1
  · cases hn : p.nome with
    | none => rfl
    | some s =>
      have hts := hnome s hn
      by_cases h : s = ""
      · simp [h, truthyS]
      · simp [h, truthyS, hts]
  · cases p.documento <;> rfl
  · cases p.telefone <;> rfl
  · cases p.endereco <;> rfl
  · cases p.ativo <;> rfl

theorem updDivida_mkDivida (p : Payload) (t n : Nat) (cid uid : Option Nat) :
    updDivida p cid uid (mkDivida t n cid uid p) = mkDivida t n cid uid p := by
  simp only [updDivida, mkDivida]
  congr 1
  · cases p.id_local <;> rfl
  · cases cid <;> rfl
  · cases uid <;> rfl
  · cases hx : p.valor_total with
    | none => rfl
    | some x => by_cases h : x = 0 <;> simp [h, truthyI]
  · cases hx : p.valor_original with
    | none => rfl
    | some x => by_cases h : x = 0 <;> simp [h, truthyI]
  · cases hx : p.desconto_aplicado with
    | none => rfl
    | some x => by_cases h : x = 0 <;> simp [h, truthyI]
  · cases hx : p.percentual_desconto with
    | none => rfl
    | some x => by_cases h : x = 0 <;> simp [h, truthyI]
  · cases hx : p.valor_pago with
    | none => rfl
    | some x => by_cases h : x = 0 <;> simp [h, truthyI]
  · cases hs : p.status with
    | none => rfl
    | some s => by_cases h : s = "" <;> simp [h, truthyS]
  · cases p.observacao <;> rfl

theorem updDivida_tenant (p : Payload) (cid uid : Option Nat) (d : Divida) :
    (updDivida p cid uid d).tenant_id = d.tenant_id := rfl

theorem updDivida_id (p : Payload) (cid uid : Option Nat) (d : Divida) :
    (updDivida p cid uid d).id = d.id := rfl

theorem updDivida_status (p : Payload) (cid uid : Option Nat) (d : Divida) :
    (updDivida p cid uid d).status =
      match p.status with
      | none => d.status
      | some s => if s = "" then d.status else s := rfl

theorem length_filterMap_countP {α β : Type} (f : α → Option β) (l : List α) :
    (l.filterMap f).length = l.countP (fun a => (f a).isSome) := by
  induction l with
  | nil => rfl
  | cons a rest ih =>
    cases h : f a with
    | none => simp [List.filterMap_cons, h, List.countP_cons, ih]
    | some b => simp [List.filterMap_cons, h, List.countP_cons, ih]

theorem filter_map_eq_of_pred {α : Type} (p : α → Bool) (g : α → α)
    (h1 : ∀ a, p (g a) = p a) (h2 : ∀ a, p a = true → g a = a) (l : List α) :
    (l.map g).filter p = l.filter p := by
  induction l with
  | nil => rfl
  | cons a rest ih =>
    by_cases hp : p a = true
    · simp only [List.map_cons, List.filter_cons, h1 a, hp, if_pos, h2 a hp, ih]
    · simp only [List.map_cons, List.filter_cons, h1 a]
      rw [Bool.not_eq_true] at hp
      simp [hp, ih]

theorem applyPedido_char (tenant : Nat) (st : SyncState) (ev : SyncPushEvent) (n : Nat)
    (hu : ev.payload.uuid = .ok n) :
    (applyPedido tenant st ev).1.db.vendas =
      (match st.db.vendas.find? (fun v => v.id == n && v.tenant_id == tenant) with
       | some _ => st.db.vendas
       | none => st.db.vendas ++ [mkVenda tenant n ev.payload]) ∧
    (applyPedido tenant st ev).1.db.clientes = st.db.clientes ∧
    (applyPedido tenant st ev).1.db.dividas = st.db.dividas ∧
    (applyPedido tenant st ev).1.db.produtos = st.db.produtos ∧
    (applyPedido tenant st ev).1.db.itens_venda =
      st.db.itens_venda ++ ev.payload.itens.filterMap (fun it =>
        (resolveProdutoUuid tenant st.db.produtos it).map (fun pid => mkItemVenda n pid it)) ∧
    (applyPedido tenant st ev).2 = { outbox_id := ev.outbox_id, ok := true, error := none } := by
  simp [applyPedido, hu]

theorem applyCliente_char (tenant : Nat) (st : SyncState) (ev : SyncPushEvent) (n : Nat)
    (hid : (cliIdField ev.payload).parse? = some n) :
    (applyCliente tenant st ev).1.db.clientes =
      (match st.db.clientes.find? (fun c => c.id == n && c.tenant_id == tenant) with
       | some _ => st.db.clientes.map (fun c =>
           if c.id == n && c.tenant_id == tenant then updCliente ev.payload c else c)
       | none => st.db.clientes ++ [mkCliente tenant n ev.payload]) ∧
    (applyCliente tenant st ev).1.db.vendas = st.db.vendas ∧
    (applyCliente tenant st ev).1.nextUuid = st.nextUuid ∧
    (applyCliente tenant st ev).2 = { outbox_id := ev.outbox_id, ok := true, error := none } := by
  simp [applyCliente, hid]

theorem applyDivida_char (tenant : Nat) (st : SyncState) (ev : SyncPushEvent) (n : Nat)
    (hid : ev.payload.id.parse? = some n) :
    (applyDivida tenant st ev).1.db.dividas =
      (match st.db.dividas.find? (fun d => d.id == n && d.tenant_id == tenant) with
       | some _ => st.db.dividas.map (fun d =>
           if d.id == n && d.tenant_id == tenant
           then updDivida ev.payload ev.payload.cliente_id.parse? ev.payload.usuario_id.parse? d
           else d)
       | none => st.db.dividas ++
           [mkDivida tenant n ev.payload.cliente_id.parse? ev.payload.usuario_id.parse? ev.payload]) ∧
    (applyDivida tenant st ev).2 = { outbox_id := ev.outbox_id, ok := true, error := none } := by
  simp [applyDivida, hid]

theorem upsert_pedido_idem (tenant : Nat) (st : SyncState) (ev : SyncPushEvent) (n : Nat)
    (hent : ev.entity = "pedido") (hu : ev.payload.uuid = .ok n) :
    (applyEvent tenant (applyEvent tenant st ev).1 ev).1.db.vendas =
      (applyEvent tenant st ev).1.db.vendas ∧
    (applyEvent tenant (applyEvent tenant st ev).1 ev).2.ok = true := by
  have he : ∀ s : SyncState, applyEvent tenant s ev = applyPedido tenant s ev :=
    fun s => applyEvent_eq_pedido tenant s ev (by rw [hent]; rfl)
  simp only [he]
  have hv := (applyPedido_char tenant st ev n hu).1
  have hr2 := (applyPedido_char tenant (applyPedido tenant st ev).1 ev n hu).2.2.2.2.2
  refine ⟨?_, by rw [hr2]⟩
  have hv2 := (applyPedido_char tenant (applyPedido tenant st ev).1 ev n hu).1
  cases hfind : st.db.vendas.find? (fun v => v.id == n && v.tenant_id == tenant) with
  | some v0 =>
    have hv' : (applyPedido tenant st ev).1.db.vendas = st.db.vendas := by rw [hv, hfind]
    rw [hv2, hv', hfind]
  | none =>
    have hv' : (applyPedido tenant st ev).1.db.vendas =
        st.db.vendas ++ [mkVenda tenant n ev.payload] := by rw [hv, hfind]
    have hfind2 : (applyPedido tenant st ev).1.db.vendas.find?
        (fun v => v.id == n && v.tenant_id == tenant) = some (mkVenda tenant n ev.payload) := by
      rw [hv', List.find?_append, hfind]
      simp [mkVenda]
    rw [hv2, hfind2]

theorem upsert_cliente_idem (tenant : Nat) (st : SyncState) (ev : SyncPushEvent) (n : Nat)
    (hent : ev.entity = "cliente") (hid : (cliIdField ev.payload).parse? = some n)
    (hnome : ∀ s, ev.payload.nome = some s → pyStrip s = s) :
    (applyEvent tenant (applyEvent tenant st ev).1 ev).1.db.clientes =
      (applyEvent tenant st ev).1.db.clientes ∧
    (applyEvent tenant (applyEvent tenant st ev).1 ev).2.ok = true := by
  have he : ∀ s : SyncState, applyEvent tenant s ev = applyCliente tenant s ev :=
    fun s => applyEvent_eq_cliente tenant s ev (by rw [hent]; rfl)
  simp only [he]
  have hr2 := (applyCliente_char tenant (applyCliente tenant st ev).1 ev n hid).2.2.2
  refine ⟨?_, by rw [hr2]⟩
  have hc := (applyCliente_char tenant st ev n hid).1
  have hc2 := (applyCliente_char tenant (applyCliente tenant st ev).1 ev n hid).1
  set p := ev.payload with hp
  set pred := fun c : Cliente => c.id == n && c.tenant_id == tenant with hpred
  set g := fun c : Cliente => if pred c then updCliente p c else c with hg
  have hpredg : ∀ c, pred (g c) = pred c := by
    intro c
    by_cases h : pred c = true
    · simp only [hpred] at h
      simp only [Bool.and_eq_true, beq_iff_eq] at h
      simp [hg, hpred, h.1, h.2, updCliente_id, updCliente_tenant]
    · rw [Bool.not_eq_true] at h
      simp [hg, h]
  have hgg : ∀ c, g (g c) = g c := by
    intro c
    by_cases h : pred c = true
    · have h2 : pred (g c) = true := by rw [hpredg, h]
      simp only [hg] at h2 ⊢
      rw [if_pos h, if_pos (by simpa [hg, if_pos h] using h2), updCliente_idem]
    · rw [Bool.not_eq_true] at h
      simp [hg, h]
  cases hfind : st.db.clientes.find? pred with
  | some c0 =>
    have hc' : (applyCliente tenant st ev).1.db.clientes = st.db.clientes.map g := by
      rw [hc, hfind]
    have hfind2 : ((applyCliente tenant st ev).1.db.clientes).find? pred =
        some (g c0) := by
      rw [hc', List.find?_map]
      have : pred ∘ g = pred := funext hpredg
      rw [this, hfind]
      rfl
    rw [hc2, hfind2, hc']
    rw [List.map_map]
    exact List.map_congr_left (fun c _ => hgg c)
  | none =>
    have hc' : (applyCliente tenant st ev).1.db.clientes =
        st.db.clientes ++ [mkCliente tenant n p] := by rw [hc, hfind]
    have hpredmk : pred (mkCliente tenant n p) = true := by simp [hpred, mkCliente]
    have hfind2 : ((applyCliente tenant st ev).1.db.clientes).find? pred =
        some (mkCliente tenant n p) := by
      rw [hc', List.find?_append, hfind]
      simp [hpredmk]
    rw [hc2, hfind2, hc', List.map_append]
    have hmapl : st.db.clientes.map g = st.db.clientes := by
      calc st.db.clientes.map g = st.db.clientes.map id :=
            List.map_congr_left (fun c hcmem => by
              have hnp : ¬ pred c = true := List.find?_eq_none.mp hfind c hcmem
              rw [Bool.not_eq_true] at hnp
              simp [hg, hnp])
        _ = st.db.clientes := List.map_id _
    rw [hmapl]
    have hmk : g (mkCliente tenant n p) = mkCliente tenant n p := by
      rw [hg]
      simp only [hpredmk, if_pos]
      exact updCliente_mkCliente p tenant n hnome
    simp [hmk]

theorem upsert_divida_idem (tenant : Nat) (st : SyncState) (ev : SyncPushEvent) (n : Nat)
    (hent : ev.entity = "divida") (hid : ev.payload.id = .ok n) :
    (applyEvent tenant (applyEvent tenant st ev).1 ev).1.db.dividas =
      (applyEvent tenant st ev).1.db.dividas ∧
    (applyEvent tenant (applyEvent tenant st ev).1 ev).2.ok = true := by
  have he : ∀ s : SyncState, applyEvent tenant s ev = applyDivida tenant s ev :=
    fun s => applyEvent_eq_divida tenant s ev (by rw [hent]; rfl)
  simp only [he]
  have hidp : ev.payload.id.parse? = some n := by rw [hid]; rfl
  have hr2 := (applyDivida_char tenant (applyDivida tenant st ev).1 ev n hidp).2
  refine ⟨?_, by rw [hr2]⟩
  have hc := (applyDivida_char tenant st ev n hidp).1
  have hc2 := (applyDivida_char tenant (applyDivida tenant st ev).1 ev n hidp).1
  set p := ev.payload with hp
  set cid := p.cliente_id.parse? with hcid
  set uid := p.usuario_id.parse? with huid
  set pred := fun d : Divida => d.id == n && d.tenant_id == tenant with hpred
  set g := fun d : Divida => if pred d then updDivida p cid uid d else d with hg
  have hpredg : ∀ d, pred (g d) = pred d := by
    intro d
    by_cases h : pred d = true
    · simp only [hpred] at h
      simp only [Bool.and_eq_true, beq_iff_eq] at h
      simp [hg, hpred, h.1, h.2, updDivida_id, updDivida_tenant]
    · rw [Bool.not_eq_true] at h
      simp [hg, h]
  have hgg : ∀ d, g (g d) = g d := by
    intro d
    by_cases h : pred d = true
    · have h2 : pred (g d) = true := by rw [hpredg, h]
      simp only [hg] at h2 ⊢
      rw [if_pos h, if_pos (by simpa [hg, if_pos h] using h2), updDivida_idem]
    · rw [Bool.not_eq_true] at h
      simp [hg, h]
  cases hfind : st.db.dividas.find? pred with
  | some d0 =>
    have hc' : (applyDivida tenant st ev).1.db.dividas = st.db.dividas.map g := by
      rw [hc, hfind]
    have hfind2 : ((applyDivida tenant st ev).1.db.dividas).find? pred = some (g d0) := by
      rw [hc', List.find?_map]
      have hcomp : pred ∘ g = pred := funext hpredg
      rw [hcomp, hfind]
      rfl
    rw [hc2, hfind2, hc']
    rw [List.map_map]
    exact List.map_congr_left (fun d _ => hgg d)
  | none =>
    have hc' : (applyDivida tenant st ev).1.db.dividas =
        st.db.dividas ++ [mkDivida tenant n cid uid p] := by rw [hc, hfind]
    have hpredmk : pred (mkDivida tenant n cid uid p) = true := by simp [hpred, mkDivida]
    have hfind2 : ((applyDivida tenant st ev).1.db.dividas).find? pred =
        some (mkDivida tenant n cid uid p) := by
      rw [hc', List.find?_append, hfind]
      simp [hpredmk]
    rw [hc2, hfind2, hc', List.map_append]
    have hmapl : st.db.dividas.map g = st.db.dividas := by
      calc st.db.dividas.map g = st.db.dividas.map id :=
            List.map_congr_left (fun d hdmem => by
              have hnp : ¬ pred d = true := List.find?_eq_none.mp hfind d hdmem
              rw [Bool.not_eq_true] at hnp
              simp [hg, hnp])
        _ = st.db.dividas := List.map_id _
    rw [hmapl]
    have hmk : g (mkDivida tenant n cid uid p) = mkDivida tenant n cid uid p := by
      rw [hg]
      simp only [hpredmk, if_pos]
      exact updDivida_mkDivida p tenant n cid uid
    simp [hmk]

theorem updDivida_statusFrom (p : Payload) (cid uid : Option Nat) (d : Divida) :
    (updDivida p cid uid d).status = statusFromPayload p.status d.status := rfl

theorem mkDivida_statusFrom (p : Payload) (t n : Nat) (cid uid : Option Nat) :
    (mkDivida t n cid uid p).status = statusFromPayload p.status "Pendente" := by
  cases hs : p.status with
  | none => simp [mkDivida, truthyS, statusFromPayload, hs]
  | some s =>
    by_cases h : s = "" <;> simp [mkDivida, truthyS, statusFromPayload, hs, h]

/-- C4 amended.  The header upsert is idempotent on the (tenant, id) key
for orders and debts; for customers it is idempotent whenever the payload
name is absent or equals its stripped form (the create path strips the
name, the update path does not, so a padded name breaks idempotency); the
second push always reports ok and mutates in place (no duplicate row). -/
theorem push_header_upsert_idempotent :
    (∀ (tenant : Nat) (st : SyncState) (ev : SyncPushEvent) (n : Nat),
       ev.entity = "pedido" → ev.payload.uuid = .ok n →
       (applyEvent tenant (applyEvent tenant st ev).1 ev).1.db.vendas =
         (applyEvent tenant st ev).1.db.vendas ∧
       (applyEvent tenant (applyEvent tenant st ev).1 ev).2.ok = true) ∧
    (∀ (tenant : Nat) (st : SyncState) (ev : SyncPushEvent) (n : Nat),
       ev.entity = "cliente" → (cliIdField ev.payload).parse? = some n →
       (∀ s, ev.payload.nome = some s → pyStrip s = s) →
       (applyEvent tenant (applyEvent tenant st ev).1 ev).1.db.clientes =
         (applyEvent tenant st ev).1.db.clientes ∧
       (applyEvent tenant (applyEvent tenant st ev).1 ev).2.ok = true) ∧
    (∀ (tenant : Nat) (st : SyncState) (ev : SyncPushEvent) (n : Nat),
       ev.entity = "divida" → ev.payload.id = .ok n →
       (applyEvent tenant (applyEvent tenant st ev).1 ev).1.db.dividas =
         (applyEvent tenant st ev).1.db.dividas ∧
       (applyEvent tenant (applyEvent tenant st ev).1 ev).2.ok = true) :=
  ⟨fun t st ev n h1 h2 => upsert_pedido_idem t st ev n h1 h2,
   fun t st ev n h1 h2 h3 => upsert_cliente_idem t st ev n h1 h2 h3,
   fun t st ev n h1 h2 => upsert_divida_idem t st ev n h1 h2⟩

/-- Counterexample to C4 as stated: pushing the identical customer payload
whose name is " Bob" once stores the stripped "Bob", but the second push
overwrites it with the unstripped " Bob" — the stored header state after
two pushes differs from the state after one. -/
theorem push_customer_upsert_not_idempotent :
    ((applyEvent 1 exStEmpty exEv4).1.db.clientes.map Cliente.nome = ["Bob"]) ∧
    ((applyEvent 1 (applyEvent 1 exStEmpty exEv4).1 exEv4).1.db.clientes.map Cliente.nome
       = [" Bob"]) ∧
    (applyEvent 1 (applyEvent 1 exStEmpty exEv4).1 exEv4).2.ok = true := by decide

/-- Witness for C4 amended at a concrete customer double-push. -/
theorem push_header_upsert_idempotent_witness :
    (applyEvent 1 (applyEvent 1 exStEmpty exEv4b).1 exEv4b).1.db.clientes =
      (applyEvent 1 exStEmpty exEv4b).1.db.clientes ∧
    (applyEvent 1 (applyEvent 1 exStEmpty exEv4b).1 exEv4b).2.ok = true :=
  push_header_upsert_idempotent.2.1 1 exStEmpty exEv4b 3 rfl rfl
    (fun s hs => by cases hs; rfl)

/-- C3 amended.  An order event with a parseable uuid always succeeds:
items whose product resolves (by id parse, or tenant-scoped code lookup)
are appended, items whose product cannot be resolved are silently skipped
rather than rejecting the event, and the order header is persisted. -/
theorem push_order_skips_unresolvable_items :
    ∀ (tenant : Nat) (st : SyncState) (ev : SyncPushEvent) (n : Nat),
      ev.entity = "pedido" → ev.payload.uuid = .ok n →
      (applyEvent tenant st ev).2.ok = true ∧
      (applyEvent tenant st ev).2.error = none ∧
      (∃ v ∈ (applyEvent tenant st ev).1.db.vendas, v.id = n ∧ v.tenant_id = tenant) ∧
      (applyEvent tenant st ev).1.db.itens_venda.length =
        st.db.itens_venda.length +
          ev.payload.itens.countP
            (fun it => (resolveProdutoUuid tenant st.db.produtos it).isSome) := by
  intro tenant st ev n hent hu
  have he : applyEvent tenant st ev = applyPedido tenant st ev :=
    applyEvent_eq_pedido tenant st ev (by rw [hent]; rfl)
  rw [he]
  rcases applyPedido_char tenant st ev n hu with ⟨hv, _, _, _, hiv, hr⟩
  refine ⟨by rw [hr], by rw [hr], ?_, ?_⟩
  · rw [hv]
    cases hfind : st.db.vendas.find? (fun v => v.id == n && v.tenant_id == tenant) with
    | some v0 =>
      have hmem := List.mem_of_find?_eq_some hfind
      have hpv := List.find?_some hfind
      simp only [Bool.and_eq_true, beq_iff_eq] at hpv
      exact ⟨v0, hmem, hpv.1, hpv.2⟩
    | none =>
      refine ⟨mkVenda tenant n ev.payload, ?_, rfl, rfl⟩
      simp
  · rw [hiv, List.length_append]
    congr 1
    rw [length_filterMap_countP]
    have hpt : ∀ it : ItemPayload,
        ((resolveProdutoUuid tenant st.db.produtos it).map
          (fun pid => mkItemVenda n pid it)).isSome =
          (resolveProdutoUuid tenant st.db.produtos it).isSome := by
      intro it
      cases resolveProdutoUuid tenant st.db.produtos it <;> rfl
    simp only [hpt]

/-- Counterexample to C3 as stated: the item references product code X,
which does not exist in the tenant, yet the event is NOT rejected with
InvalidReference: it reports ok with no error, the order row is
persisted, and the bad item is silently dropped. -/
theorem push_order_bad_item_not_rejected :
    (push_changes 1 [exEv3] exStEmpty).2 = [{ outbox_id := 1, ok := true, error := none }] ∧
    ((push_changes 1 [exEv3] exStEmpty).1.db.vendas.map Venda.id) = [7] ∧
    (push_changes 1 [exEv3] exStEmpty).1.db.itens_venda = [] := by decide

/-- Witness for C3 amended at the same concrete event. -/
theorem push_order_skips_unresolvable_items_witness :
    (applyEvent 1 exStEmpty exEv3).2.ok = true ∧
    (applyEvent 1 exStEmpty exEv3).2.error = none ∧
    (∃ v ∈ (applyEvent 1 exStEmpty exEv3).1.db.vendas, v.id = 7 ∧ v.tenant_id = 1) ∧
    (applyEvent 1 exStEmpty exEv3).1.db.itens_venda.length =
      exStEmpty.db.itens_venda.length +
        exEv3.payload.itens.countP
          (fun it => (resolveProdutoUuid 1 exStEmpty.db.produtos it).isSome) :=
  push_order_skips_unresolvable_items 1 exStEmpty exEv3 7 rfl rfl

/-- C6 amended.  After a debt push the affected header status is exactly
the payload status string (verbatim, defaulting to "Pendente" on create
and keeping the old status when the key is absent or empty); the right
hand side mentions neither valor_pago nor valor_total: the status is never
recomputed from the paid amount versus the total. -/
theorem push_debt_status_from_payload :
    ∀ (tenant : Nat) (st : SyncState) (ev : SyncPushEvent) (n : Nat),
      ev.entity = "divida" → ev.payload.id = .ok n →
      ((applyEvent tenant st ev).1.db.dividas.map Divida.status) =
        (st.db.dividas.map (fun d =>
          if d.id == n && d.tenant_id == tenant
          then statusFromPayload ev.payload.status d.status else d.status)) ++
        (if (st.db.dividas.find? (fun d => d.id == n && d.tenant_id == tenant)).isSome
         then [] else [statusFromPayload ev.payload.status "Pendente"]) := by
  intro tenant st ev n hent hid
  have he : applyEvent tenant st ev = applyDivida tenant st ev :=
    applyEvent_eq_divida tenant st ev (by rw [hent]; rfl)
  rw [he]
  have hidp : ev.payload.id.parse? = some n := by rw [hid]; rfl
  have hc := (applyDivida_char tenant st ev n hidp).1
  rw [hc]
  cases hfind : st.db.dividas.find? (fun d => d.id == n && d.tenant_id == tenant) with
  | some d0 =>
    simp only [hfind, Option.isSome_some, if_true, List.append_nil, List.map_map]
    apply List.map_congr_left
    intro d _
    by_cases hpd : (d.id == n && d.tenant_id == tenant) = true
    · simp [Function.comp, hpd, updDivida_statusFrom]
    · rw [Bool.not_eq_true] at hpd
      simp [Function.comp, hpd]
  | none =>
    simp only [hfind, Option.isSome_none, Bool.false_eq_true, if_false, List.map_append]
    congr 1
    · apply List.map_congr_left
      intro d hd
      have hnp := List.find?_eq_none.mp hfind d hd
      rw [Bool.not_eq_true] at hnp
      simp [hnp]
    · simp [mkDivida_statusFrom]

/-- Counterexample to C6 as stated: a debt with paid amount equal to its
total keeps the payload status Pendente (no recomputation to Settled),
and an unpaid debt pushed with status Quitada stores Quitada verbatim —
status comes straight from the payload. -/
theorem push_debt_status_verbatim_cex :
    ((applyEvent 1 exStEmpty exEv6).1.db.dividas.map Divida.status = ["Pendente"] ∧
     (applyEvent 1 exStEmpty exEv6).1.db.dividas.map Divida.valor_pago = [50] ∧
     (applyEvent 1 exStEmpty exEv6).1.db.dividas.map Divida.valor_total = [50]) ∧
    ((applyEvent 1 exStEmpty exEv6b).1.db.dividas.map Divida.status = ["Quitada"] ∧
     (applyEvent 1 exStEmpty exEv6b).1.db.dividas.map Divida.valor_pago = [0]) := by decide

/-- Witness for C6 amended at a concrete debt push. -/
theorem push_debt_status_from_payload_witness :
    ((applyEvent 1 exStEmpty exEv6).1.db.dividas.map Divida.status) =
      (exStEmpty.db.dividas.map (fun d =>
        if d.id == 4 && d.tenant_id == 1
        then statusFromPayload exEv6.payload.status d.status else d.status)) ++
      (if (exStEmpty.db.dividas.find? (fun d => d.id == 4 && d.tenant_id == 1)).isSome
       then [] else [statusFromPayload exEv6.payload.status "Pendente"]) :=
  push_debt_status_from_payload 1 exStEmpty exEv6 4 rfl rfl

/-- C8 amended.  A created order header stores payloadTotal — the
valor_total (else total) field taken verbatim from the client payload,
defaulting to 0 — not a server-side recomputation from item subtotals. -/
theorem push_order_total_from_payload :
    ∀ (tenant : Nat) (st : SyncState) (ev : SyncPushEvent) (n : Nat),
      ev.entity = "pedido" → ev.payload.uuid = .ok n →
      st.db.vendas.find? (fun v => v.id == n && v.tenant_id == tenant) = none →
      (applyEvent tenant st ev).1.db.vendas.map (fun v => (v.id, v.total)) =
        st.db.vendas.map (fun v => (v.id, v.total)) ++ [(n, payloadTotal ev.payload)] := by
  intro tenant st ev n hent hu hnone
  have he : applyEvent tenant st ev = applyPedido tenant st ev :=
    applyEvent_eq_pedido tenant st ev (by rw [hent]; rfl)
  rw [he, (applyPedido_char tenant st ev n hu).1, hnone, List.map_append]
  rfl

/-- Counterexample to C8 as stated: the stored order total is the client
payload value 999, while its only item subtotal is 20 and the delivery fee
is 0 — the total is taken verbatim, not recomputed server-side. -/
theorem push_order_total_not_recomputed :
    ((applyEvent 1 exSt8 exEv8).1.db.vendas.map Venda.total) = [999] ∧
    ((applyEvent 1 exSt8 exEv8).1.db.itens_venda.map ItemVenda.subtotal) = [20] := by decide

/-- Witness for C8 amended at the same concrete event. -/
theorem push_order_total_from_payload_witness :
    (applyEvent 1 exSt8 exEv8).1.db.vendas.map (fun v => (v.id, v.total)) =
      exSt8.db.vendas.map (fun v => (v.id, v.total)) ++ [(8, payloadTotal exEv8.payload)] :=
  push_order_total_from_payload 1 exSt8 exEv8 8 rfl rfl rfl

/-- C9 amended.  Only an order event with an absent/falsy uuid is rejected
(per event, with ok=false and the error string "missing uuid", leaving the
state unchanged); an order event with an unparseable uuid, and a customer
or debt event with a missing or unparseable id, are all applied under a
freshly generated uuid and report ok=true. -/
theorem push_invalid_id_handling :
    (∀ (tenant : Nat) (st : SyncState) (ev : SyncPushEvent),
       ev.entity = "pedido" → ev.payload.uuid = .absent →
       applyEvent tenant st ev =
         (st, { outbox_id := ev.outbox_id, ok := false, error := some "missing uuid" })) ∧
    (∀ (tenant : Nat) (st : SyncState) (ev : SyncPushEvent),
       ev.entity = "pedido" → ev.payload.uuid = .bad →
       (applyEvent tenant st ev).2.ok = true ∧
       (applyEvent tenant st ev).1.nextUuid = st.nextUuid + 1 ∧
       (st.db.vendas.find? (fun v => v.id == st.nextUuid && v.tenant_id == tenant) = none →
         (applyEvent tenant st ev).1.db.vendas.map Venda.id =
           st.db.vendas.map Venda.id ++ [st.nextUuid])) ∧
    (∀ (tenant : Nat) (st : SyncState) (ev : SyncPushEvent),
       ev.entity = "cliente" → (cliIdField ev.payload).parse? = none →
       (applyEvent tenant st ev).2.ok = true ∧
       (applyEvent tenant st ev).1.nextUuid = st.nextUuid + 1 ∧
       (st.db.clientes.find? (fun c => c.id == st.nextUuid && c.tenant_id == tenant) = none →
         (applyEvent tenant st ev).1.db.clientes.map Cliente.id =
           st.db.clientes.map Cliente.id ++ [st.nextUuid])) ∧
    (∀ (tenant : Nat) (st : SyncState) (ev : SyncPushEvent),
       ev.entity = "divida" → ev.payload.id.parse? = none →
       (applyEvent tenant st ev).2.ok = true ∧
       (applyEvent tenant st ev).1.nextUuid = st.nextUuid + 1 ∧
       (st.db.dividas.find? (fun d => d.id == st.nextUuid && d.tenant_id == tenant) = none →
         (applyEvent tenant st ev).1.db.dividas.map Divida.id =
           st.db.dividas.map Divida.id ++ [st.nextUuid])) := by
  refine ⟨?_, ?_, ?_, ?_⟩
  · intro tenant st ev hent hu
    rw [applyEvent_eq_pedido tenant st ev (by rw [hent]; rfl)]
    simp [applyPedido, hu]
  · intro tenant st ev hent hu
    rw [applyEvent_eq_pedido tenant st ev (by rw [hent]; rfl)]
    refine ⟨by simp [applyPedido, hu], by simp [applyPedido, hu], ?_⟩
    intro hfind
    simp [applyPedido, hu, hfind, mkVenda]
  · intro tenant st ev hent hid
    rw [applyEvent_eq_cliente tenant st ev (by rw [hent]; rfl)]
    refine ⟨by simp [applyCliente, hid], by simp [applyCliente, hid], ?_⟩
    intro hfind
    simp [applyCliente, hid, hfind, mkCliente]
  · intro tenant st ev hent hid
    rw [applyEvent_eq_divida tenant st ev (by rw [hent]; rfl)]
    refine ⟨by simp [applyDivida, hid], by simp [applyDivida, hid], ?_⟩
    intro hfind
    simp [applyDivida, hid, hfind, mkDivida]

/-- Counterexample to C9 as stated: a customer event with a missing id is
not reported InvalidPayload and is not a no-op — it reports ok=true and
creates a row under the freshly generated uuid 100. -/
theorem push_missing_id_not_rejected :
    (push_changes 1 [exEv9] exStEmpty).2 = [{ outbox_id := 1, ok := true, error := none }] ∧
    (push_changes 1 [exEv9] exStEmpty).1.db.clientes.map Cliente.id = [100] := by decide

/-- Witness for C9 amended: the missing-uuid order event is rejected with
the error string and leaves the state unchanged. -/
theorem push_invalid_id_handling_witness :
    applyEvent 1 exStEmpty exEv9b =
      (exStEmpty, { outbox_id := 3, ok := false, error := some "missing uuid" }) :=
  push_invalid_id_handling.1 1 exStEmpty exEv9b rfl rfl

theorem applyPedido_frame (tenant B : Nat) (hB : ¬ tenant = B) (st : SyncState) (ev : SyncPushEvent) :
    (applyPedido tenant st ev).1.db.produtos = st.db.produtos ∧
    (applyPedido tenant st ev).1.db.vendas.filter (fun v => v.tenant_id == B) =
      st.db.vendas.filter (fun v => v.tenant_id == B) ∧
    (applyPedido tenant st ev).1.db.clientes = st.db.clientes ∧
    (applyPedido tenant st ev).1.db.dividas = st.db.dividas := by
  cases hu : ev.payload.uuid with
  | absent => simp [applyPedido, hu]
  | bad =>
    refine ⟨by simp [applyPedido, hu], ?_, by simp [applyPedido, hu], by simp [applyPedido, hu]⟩
    cases hfind : st.db.vendas.find? (fun v => v.id == st.nextUuid && v.tenant_id == tenant) with
    | some v0 => simp [applyPedido, hu, hfind]
    | none => simp [applyPedido, hu, hfind, List.filter_append, mkVenda, beq_iff_eq, hB]
  | ok m =>
    refine ⟨by simp [applyPedido, hu], ?_, by simp [applyPedido, hu], by simp [applyPedido, hu]⟩
    cases hfind : st.db.vendas.find? (fun v => v.id == m && v.tenant_id == tenant) with
    | some v0 => simp [applyPedido, hu, hfind]
    | none => simp [applyPedido, hu, hfind, List.filter_append, mkVenda, beq_iff_eq, hB]

theorem applyCliente_frame (tenant B : Nat) (hB : ¬ tenant = B) (st : SyncState) (ev : SyncPushEvent) :
    (applyCliente tenant st ev).1.db.produtos = st.db.produtos ∧
    (applyCliente tenant st ev).1.db.vendas = st.db.vendas ∧
    (applyCliente tenant st ev).1.db.clientes.filter (fun c => c.tenant_id == B) =
      st.db.clientes.filter (fun c => c.tenant_id == B) ∧
    (applyCliente tenant st ev).1.db.dividas = st.db.dividas := by
  refine ⟨rfl, rfl, ?_, rfl⟩
  simp only [applyCliente]
  split
  · apply filter_map_eq_of_pred
    · intro c
      by_cases h : (c.id == (cliIdField ev.payload).parse?.getD st.nextUuid
          && c.tenant_id == tenant) = true
      · simp [h, updCliente_tenant]
      · rw [Bool.not_eq_true] at h
        simp [h]
    · intro c hc
      simp only [beq_iff_eq] at hc
      have : (c.tenant_id == tenant) = false := by
        rw [hc]
        simp [beq_iff_eq]
        intro hq
        exact hB hq.symm
      simp [this]
  · rw [List.filter_append]
    simp [mkCliente, beq_iff_eq, hB]

theorem applyDivida_frame (tenant B : Nat) (hB : ¬ tenant = B) (st : SyncState) (ev : SyncPushEvent) :
    (applyDivida tenant st ev).1.db.produtos = st.db.produtos ∧
    (applyDivida tenant st ev).1.db.vendas = st.db.vendas ∧
    (applyDivida tenant st ev).1.db.clientes = st.db.clientes ∧
    (applyDivida tenant st ev).1.db.dividas.filter (fun d => d.tenant_id == B) =
      st.db.dividas.filter (fun d => d.tenant_id == B) := by
  refine ⟨rfl, rfl, rfl, ?_⟩
  simp only [applyDivida]
  split
  · apply filter_map_eq_of_pred
    · intro d
      by_cases h : (d.id == ev.payload.id.parse?.getD st.nextUuid
          && d.tenant_id == tenant) = true
      · simp [h, updDivida_tenant]
      · rw [Bool.not_eq_true] at h
        simp [h]
    · intro d hd
      simp only [beq_iff_eq] at hd
      have : (d.tenant_id == tenant) = false := by
        rw [hd]
        simp [beq_iff_eq]
        intro hq
        exact hB hq.symm
      simp [this]
  · rw [List.filter_append]
    simp [mkDivida, beq_iff_eq, hB]

theorem applyEvent_frame (tenant B : Nat) (hB : ¬ tenant = B) (st : SyncState) (ev : SyncPushEvent) :
    (applyEvent tenant st ev).1.db.produtos = st.db.produtos ∧
    (applyEvent tenant st ev).1.db.vendas.filter (fun v => v.tenant_id == B) =
      st.db.vendas.filter (fun v => v.tenant_id == B) ∧
    (applyEvent tenant st ev).1.db.clientes.filter (fun c => c.tenant_id == B) =
      st.db.clientes.filter (fun c => c.tenant_id == B) ∧
    (applyEvent tenant st ev).1.db.dividas.filter (fun d => d.tenant_id == B) =
      st.db.dividas.filter (fun d => d.tenant_id == B) := by
  simp only [applyEvent]
  split_ifs
  · rcases applyPedido_frame tenant B hB st ev with ⟨h1, h2, h3, h4⟩
    exact ⟨h1, h2, by rw [h3], by rw [h4]⟩
  · rcases applyCliente_frame tenant B hB st ev with ⟨h1, h2, h3, h4⟩
    exact ⟨h1, by rw [h2], h3, by rw [h4]⟩
  · rcases applyDivida_frame tenant B hB st ev with ⟨h1, h2, h3, h4⟩
    exact ⟨h1, by rw [h2], by rw [h3], h4⟩
  · exact ⟨rfl, rfl, rfl, rfl⟩

theorem push_changes_frame (tenant B : Nat) (hB : ¬ tenant = B) (evs : List SyncPushEvent) :
    ∀ st : SyncState,
      (push_changes tenant evs st).1.db.produtos = st.db.produtos ∧
      (push_changes tenant evs st).1.db.vendas.filter (fun v => v.tenant_id == B) =
        st.db.vendas.filter (fun v => v.tenant_id == B) ∧
      (push_changes tenant evs st).1.db.clientes.filter (fun c => c.tenant_id == B) =
        st.db.clientes.filter (fun c => c.tenant_id == B) ∧
      (push_changes tenant evs st).1.db.dividas.filter (fun d => d.tenant_id == B) =
        st.db.dividas.filter (fun d => d.tenant_id == B) := by
  induction evs with
  | nil => intro st; exact ⟨rfl, rfl, rfl, rfl⟩
  | cons ev rest ih =>
    intro st
    have hstep := applyEvent_frame tenant B hB st ev
    have hrest := ih (applyEvent tenant st ev).1
    have hpc : (push_changes tenant (ev :: rest) st).1 =
        (push_changes tenant rest (applyEvent tenant st ev).1).1 := rfl
    rw [hpc]
    exact ⟨by rw [hrest.1, hstep.1], by rw [hrest.2.1, hstep.2.1],
           by rw [hrest.2.2.1, hstep.2.2.1], by rw [hrest.2.2.2, hstep.2.2.2]⟩

/-- C5.  Tenant isolation: a push scoped to tenant A leaves every row of
any other tenant B untouched (and never writes products at all), and a
pull scoped to tenant A returns only rows whose tenant_id is A — every
handler query and insert carries the resolved tenant id. -/
theorem tenant_isolation :
    (∀ (tenant B : Nat), ¬ tenant = B → ∀ (evs : List SyncPushEvent) (st : SyncState),
       (push_changes tenant evs st).1.db.produtos = st.db.produtos ∧
       (push_changes tenant evs st).1.db.vendas.filter (fun v => v.tenant_id == B) =
         st.db.vendas.filter (fun v => v.tenant_id == B) ∧
       (push_changes tenant evs st).1.db.clientes.filter (fun c => c.tenant_id == B) =
         st.db.clientes.filter (fun c => c.tenant_id == B) ∧
       (push_changes tenant evs st).1.db.dividas.filter (fun d => d.tenant_id == B) =
         st.db.dividas.filter (fun d => d.tenant_id == B)) ∧
    (∀ (tenant : Nat) (since : Option Nat) (limit : Int) (db : DB),
       (∀ v ∈ pullVendaRows tenant since limit db, v.tenant_id = tenant) ∧
       (∀ c ∈ pullClienteRows tenant since limit db, c.tenant_id = tenant) ∧
       (∀ d ∈ pullDividaRows tenant since limit db, d.tenant_id = tenant)) := by
  constructor
  · intro tenant B hB evs st
    exact push_changes_frame tenant B hB evs st
  · intro tenant since limit db
    exact ⟨fun v hv => (mem_pullVendaRows hv).2.1,
           fun c hc => (mem_pullClienteRows hc).2.1,
           fun d hd => (mem_pullDividaRows hd).2.1⟩

/-- Witness for C5 at a concrete push of three events under tenant 1,
checked against tenant 2, plus a concrete pull row. -/
theorem tenant_isolation_witness :
    ((push_changes 1 [exEvA, exEvB, exEvC] exStEmpty).1.db.produtos = exStEmpty.db.produtos ∧
     (push_changes 1 [exEvA, exEvB, exEvC] exStEmpty).1.db.vendas.filter
         (fun v => v.tenant_id == 2) =
       exStEmpty.db.vendas.filter (fun v => v.tenant_id == 2) ∧
     (push_changes 1 [exEvA, exEvB, exEvC] exStEmpty).1.db.clientes.filter
         (fun c => c.tenant_id == 2) =
       exStEmpty.db.clientes.filter (fun c => c.tenant_id == 2) ∧
     (push_changes 1 [exEvA, exEvB, exEvC] exStEmpty).1.db.dividas.filter
         (fun d => d.tenant_id == 2) =
       exStEmpty.db.dividas.filter (fun d => d.tenant_id == 2)) ∧
    exV2.tenant_id = 1 :=
  ⟨tenant_isolation.1 1 2 (by decide) [exEvA, exEvB, exEvC] exStEmpty,
   (tenant_isolation.2 1 none 3 exDB7).1 exV2 (by decide)⟩

end Vuchada
